import Mathlib

/-
Verification of the biggie runtime support layer: the generic Array container
(src/runtime/array.cpp), the defer scope-guard (src/runtime/defer.cpp), and the
two println dialects (src/runtime/biggie.c and src/backend/clangPreamble.c).

The C++ std::vector backing store is modelled as a Lean List; machine sizes fit
in Nat for the inputs considered; console output is modelled as the String the
call writes; undefined behavior (out-of-bounds reads, printf argument type
mismatches) is modelled as Option.none.
-/

namespace Biggie

/-- The argument values the runtime's println paths accept: a string handle or
a 32-bit signed integer, modelled as Lean String and Int. -/
inductive PrintArg where
  | str (s : String)
  | int (n : Int)
deriving DecidableEq

/-- `template <typename T> class Array { std::vector<T> _data; ... }` from
src/runtime/array.cpp; the std::vector is modelled as a List. -/
structure Array (T : Type) where
  _data : List T
deriving DecidableEq

/-- `Array(const std::initializer_list<T> data) { _data = std::vector<T>(data); }` -/
def Array.mkInit {T : Type} (data : List T) : Array T := ⟨data⟩

/-- `Array(const Array &source) { _data = source._data; }` — the copy
constructor copies the backing vector. -/
def Array.copyCtor {T : Type} (source : Array T) : Array T := ⟨source._data⟩

/-- `Array(Array &&source) { _data = source._data; }` — in the C++ source,
`source._data` is an lvalue inside the move constructor's body, so this line
copy-assigns the vector: the new array gets a copy and the source keeps its
elements. The result pairs the constructed array with the source's
post-construction state. -/
def Array.moveCtor {T : Type} (source : Array T) : Array T × Array T :=
  (⟨source._data⟩, source)

/-- `T operator[](size_t i) const { return _data[i]; }` — unchecked in C++
(out of range is undefined behavior, modelled as none). -/
def Array.index {T : Type} (a : Array T) (i : Nat) : Option T := a._data[i]?

/-- `size_t length() const { return _data.size(); }` -/
def Array.length {T : Type} (a : Array T) : Nat := a._data.length

/-- `size_t push(T element) { _data.push_back(element); return _data.size(); }`
— returns the updated array together with the returned new size. -/
def Array.push {T : Type} (a : Array T) (element : T) : Array T × Nat :=
  let d := a._data ++ [element]
  (⟨d⟩, d.length)

/-- `T pop() { T result = _data[_data.size() - 1]; _data.pop_back(); return result; }`
— on an empty vector `size() - 1` wraps and the read is undefined behavior,
modelled as none; otherwise returns the last element and the shrunk array. -/
def Array.pop {T : Type} (a : Array T) : Option (T × Array T) :=
  match a._data.getLast? with
  | none => none
  | some result => some (result, ⟨a._data.dropLast⟩)

/-- A sequence of push calls starting from a given array, keeping only the
container state (the returned sizes are examined separately). -/
def Array.pushAll {T : Type} (a : Array T) (xs : List T) : Array T :=
  xs.foldl (fun acc x => (Array.push acc x).1) a

/-- The body of `fmt::formatter<Array<T>>::format`'s loop
(src/runtime/array.cpp lines 36-45): for each index i it writes `" {0}"` with
the element, then `","` when `i != array.length() - 1` and `" "` when it is
the last index. Translated structurally: the loop's test distinguishes the
last element from the others. `render` stands for fmt's formatting of one T. -/
def formatElems {T : Type} (render : T → String) : List T → String
  | [] => ""
  | [x] => " " ++ render x ++ " "
  | x :: y :: rest => " " ++ render x ++ "," ++ formatElems render (y :: rest)

/-- `fmt::formatter<Array<T>>::format`: writes `"["`, runs the element loop,
then writes `"]"`. -/
def formatArray {T : Type} (render : T → String) (a : Array T) : String :=
  "[" ++ formatElems render a._data ++ "]"

/-- `struct __DeferFunc { T func; ... }` from src/runtime/defer.cpp. The bound
action is identified by a Nat id; firing an action appends its id to the
output trace. -/
structure __DeferFunc where
  func : Nat
deriving DecidableEq

/-- `~__DeferFunc() { func(); }` — the destructor invokes the bound action
exactly once; modelled as appending one firing of `func` to the trace. -/
def __DeferFunc.dtor (g : __DeferFunc) (trace : List Nat) : List Nat :=
  trace ++ [g.func]

/-- `__DeferFunc(const __DeferFunc &other) : func(other.func) {}` — the copy
constructor duplicates the bound action into a second guard object. -/
def __DeferFunc.copyCtor (other : __DeferFunc) : __DeferFunc := ⟨other.func⟩

/-- C++ scope exit: the automatic `__defer_` objects declared in a scope are
destroyed in reverse order of declaration on every exit path (fall-through or
early exit), and each destruction runs `~__DeferFunc` once. `guards` lists the
guard objects in declaration order. -/
def exitScope (guards : List __DeferFunc) (trace : List Nat) : List Nat :=
  guards.reverse.foldl (fun t g => __DeferFunc.dtor g t) trace

end Biggie

namespace BiggieC

open Biggie (PrintArg)

/-- The scanning loop of `println` in src/runtime/biggie.c (lines 27-42),
recursing on the remaining format characters: on `'%'` the loop advances and
inspects the next character; `'s'` prints the next argument as a string and
consumes it; `'d'` prints it as a decimal int32 and consumes it; any other
character after `'%'` prints nothing and consumes no argument, and the loop
increment then skips it. A `'%'` as the final character reads the string
literal's NUL terminator (neither 's' nor 'd'), prints nothing, and the loop
ends. Reading an argument that is missing or of the wrong type is undefined
behavior, modelled as none. Any other character is echoed via putchar. -/
def scan : List Char → List PrintArg → Option String
  | [], _ => some ""
  | c :: rest, args =>
    if c = '%' then
      match rest with
      | [] => some ""
      | d :: rest2 =>
        if d = 's' then
          match args with
          | PrintArg.str s :: args2 => (scan rest2 args2).map (fun t => s ++ t)
          | _ => none
        else if d = 'd' then
          match args with
          | PrintArg.int n :: args2 => (scan rest2 args2).map (fun t => toString n ++ t)
          | _ => none
        else scan rest2 args
    else (scan rest args).map (fun t => String.singleton c ++ t)

/-- `void println(string format, void* args[])` from src/runtime/biggie.c:
runs the scanning loop over the format string, then `putchar('\n')`. The
function returns void in C; the model returns the text written. -/
def println (format : List Char) (args : List PrintArg) : Option String :=
  (scan format args).map (fun t => t ++ "\n")

end BiggieC

namespace ClangPreamble

open Biggie (PrintArg)

/-- Model of the C standard library's `vprintf` restricted to the directives
relevant here: `%s` (string), `%d` (int32) and `%%` (literal percent); any
other conversion or a trailing lone `%` is undefined behavior in C, modelled
as none. The text written is returned; vprintf's return value is the number
of characters written, which is the length of this text. -/
def vprintfScan : List Char → List PrintArg → Option String
  | [], _ => some ""
  | c :: rest, args =>
    if c = '%' then
      match rest with
      | [] => none
      | d :: rest2 =>
        if d = 's' then
          match args with
          | PrintArg.str s :: args2 => (vprintfScan rest2 args2).map (fun t => s ++ t)
          | _ => none
        else if d = 'd' then
          match args with
          | PrintArg.int n :: args2 => (vprintfScan rest2 args2).map (fun t => toString n ++ t)
          | _ => none
        else if d = '%' then (vprintfScan rest2 args).map (fun t => "%" ++ t)
        else none
    else (vprintfScan rest args).map (fun t => String.singleton c ++ t)

/-- `int println(const char* format, ...)` from src/backend/clangPreamble.c:
`int ret = vprintf(format, args); ... puts(""); return ret;` — vprintf writes
the formatted text and yields its character count, `puts("")` then writes a
newline whose status is discarded, and the vprintf count is returned. The
model yields (total text written, returned value). -/
def println (format : List Char) (args : List PrintArg) : Option (String × Int) :=
  (vprintfScan format args).map (fun s => (s ++ "\n", (s.length : Int)))

end ClangPreamble

section Theorems

/-- Claim C1: transfer-construction (Array's move constructor) behaves exactly
like copy-construction: the transfer-constructed container's length and every
indexed element equal the source's at the moment of transfer, the source is
left unchanged rather than emptied, and the constructed value coincides with
what the copy constructor produces. -/
theorem C1_moveCtor_is_copyCtor {T : Type} (s : Biggie.Array T) :
    (Biggie.Array.moveCtor s).1.length = s.length ∧
    (∀ i, i < s.length → (Biggie.Array.moveCtor s).1.index i = s.index i) ∧
    (Biggie.Array.moveCtor s).2 = s ∧
    (Biggie.Array.moveCtor s).1 = Biggie.Array.copyCtor s :=
  ⟨rfl, fun _ _ => rfl, rfl, rfl⟩

theorem C1_moveCtor_is_copyCtor_witness :
    1 < Biggie.Array.length (⟨[4, 9]⟩ : Biggie.Array Nat) ∧
    (Biggie.Array.moveCtor (⟨[4, 9]⟩ : Biggie.Array Nat)).1.index 1 =
      Biggie.Array.index ⟨[4, 9]⟩ 1 :=
  ⟨by decide, (C1_moveCtor_is_copyCtor ⟨[4, 9]⟩).2.1 1 (by decide)⟩

/-- Claim C2: for a scope declaring guards G1 then G2 then G3 via defer, scope
exit fires the bound actions in order G3, G2, G1, and (for distinguishable
actions) each action is invoked exactly once — never zero times, never twice. -/
theorem C2_defer_fire_order (a1 a2 a3 : Nat)
    (h12 : a1 ≠ a2) (h13 : a1 ≠ a3) (h23 : a2 ≠ a3) :
    Biggie.exitScope [⟨a1⟩, ⟨a2⟩, ⟨a3⟩] [] = [a3, a2, a1] ∧
    (Biggie.exitScope [⟨a1⟩, ⟨a2⟩, ⟨a3⟩] []).count a1 = 1 ∧
    (Biggie.exitScope [⟨a1⟩, ⟨a2⟩, ⟨a3⟩] []).count a2 = 1 ∧
    (Biggie.exitScope [⟨a1⟩, ⟨a2⟩, ⟨a3⟩] []).count a3 = 1 := by
  have he : Biggie.exitScope [⟨a1⟩, ⟨a2⟩, ⟨a3⟩] [] = [a3, a2, a1] := rfl
  refine ⟨he, ?_, ?_, ?_⟩ <;> rw [he] <;>
    simp [List.count_cons, List.count_nil, h12, h13, h23,
      Ne.symm h12, Ne.symm h13, Ne.symm h23]

theorem C2_defer_fire_order_witness :
    Biggie.exitScope [⟨1⟩, ⟨2⟩, ⟨3⟩] [] = [3, 2, 1] ∧
    (Biggie.exitScope [⟨1⟩, ⟨2⟩, ⟨3⟩] []).count 1 = 1 ∧
    (Biggie.exitScope [⟨1⟩, ⟨2⟩, ⟨3⟩] []).count 2 = 1 ∧
    (Biggie.exitScope [⟨1⟩, ⟨2⟩, ⟨3⟩] []).count 3 = 1 :=
  C2_defer_fire_order 1 2 3 (by decide) (by decide) (by decide)

/-- Claim C3 (code bug): the __DeferFunc copy constructor duplicates the bound
action into a second guard, and every guard's destructor fires its action, so
a guard plus one copy of it in the same scope fires the action twice in total
— contradicting the contract that copying must not duplicate firing. -/
theorem C3_defer_copy_double_fires :
    Biggie.exitScope [⟨7⟩, Biggie.__DeferFunc.copyCtor ⟨7⟩] [] = [7, 7] ∧
    (Biggie.exitScope [⟨7⟩, Biggie.__DeferFunc.copyCtor ⟨7⟩] []).count 7 = 2 := by
  decide

/-- Claim C4 (counterexample): rendering an empty container does NOT produce
"[ ]" — the element loop body never runs, so the output is "[]". -/
theorem C4_format_empty_cex :
    Biggie.formatArray (fun n : Int => toString n) (⟨[]⟩ : Biggie.Array Int) ≠ "[ ]" := by
  decide

/-- Claim C4 (amended): rendering a container of length zero produces exactly
the text "[]" — open bracket immediately followed by close bracket, with no
space between them. -/
theorem C4_format_empty {T : Type} (render : T → String) :
    Biggie.formatArray render (Biggie.Array.mkInit ([] : List T)) = "[]" := rfl

/-- Claim C9: rendering a container holding 1, 2, 3 in that order produces
exactly the text "[ 1, 2, 3 ]". -/
theorem C9_format_one_two_three :
    Biggie.formatArray (fun n : Int => toString n)
      (Biggie.Array.mkInit [1, 2, 3]) = "[ 1, 2, 3 ]" := by
  decide

end Theorems

/-- Claim C5 (counterexample): the clangPreamble println's return value does
not reflect the full output: on format "hi" with no arguments it writes the
three characters "hi\n" but returns 2 — the vprintf count, which excludes the
trailing newline written by puts("") — and 2 ≠ 3. -/
theorem C5_println_return_cex :
    ClangPreamble.println "hi".toList [] = some ("hi\n", 2) ∧
    (("hi\n" : String).length : Int) ≠ 2 := by
  decide

/-- Claim C5 (amended): the clangPreamble println returns exactly the count of
characters produced by the underlying vprintf, i.e. the output excluding the
trailing newline that puts("") appends afterwards: whenever it returns (s, r),
the text written decomposes as s = body ++ "\n" with r = body.length =
s.length - 1. (The C-dialect println in biggie.c returns void and reports
nothing at all.) -/
theorem C5_println_return (format : List Char) (args : List Biggie.PrintArg)
    (s : String) (r : Int)
    (h : ClangPreamble.println format args = some (s, r)) :
    ∃ body, ClangPreamble.vprintfScan format args = some body ∧
      s = body ++ "\n" ∧ r = (body.length : Int) ∧ r = (s.length : Int) - 1 := by
  unfold ClangPreamble.println at h
  cases hv : ClangPreamble.vprintfScan format args with
  | none => rw [hv] at h; simp at h
  | some body =>
    rw [hv] at h
    simp only [Option.map_some', Option.some.injEq, Prod.mk.injEq] at h
    obtain ⟨hs, hr⟩ := h
    refine ⟨body, rfl, hs.symm, hr.symm, ?_⟩
    have h1 : ("\n" : String).length = 1 := rfl
    rw [← hs, ← hr, String.length_append, h1]
    push_cast
    omega

theorem C5_println_return_witness :
    ∃ body, ClangPreamble.vprintfScan "hi".toList [] = some body ∧
      ("hi\n" : String) = body ++ "\n" ∧ (2 : Int) = (body.length : Int) ∧
      (2 : Int) = (("hi\n" : String).length : Int) - 1 :=
  C5_println_return "hi".toList [] "hi\n" 2 (by decide)

/-- Helper: a fold of push operations appends the pushed elements, in order,
to the backing list. -/
theorem pushAll_data {T : Type} (xs : List T) (a : Biggie.Array T) :
    Biggie.Array.pushAll a xs = ⟨a._data ++ xs⟩ := by
  induction xs generalizing a with
  | nil => simp [Biggie.Array.pushAll]
  | cons x xs ih =>
    show Biggie.Array.pushAll ⟨a._data ++ [x]⟩ xs = _
    rw [ih]
    simp

/-- Claim C6: after N pushes on an empty container, length() equals N and
index(i) returns the i-th appended value for every 0 ≤ i < N; moreover each
push returns the new length. -/
theorem C6_pushAll_spec {T : Type} (xs : List T) :
    (Biggie.Array.pushAll (⟨[]⟩ : Biggie.Array T) xs).length = xs.length ∧
    (∀ i (hi : i < xs.length),
      (Biggie.Array.pushAll (⟨[]⟩ : Biggie.Array T) xs).index i = some (xs.get ⟨i, hi⟩)) ∧
    (∀ (a : Biggie.Array T) (x : T),
      (Biggie.Array.push a x).2 = (Biggie.Array.push a x).1.length) := by
  rw [pushAll_data]
  refine ⟨by simp [Biggie.Array.length], fun i hi => ?_, fun a x => rfl⟩
  simp [Biggie.Array.index, List.getElem?_eq_getElem hi]

theorem C6_pushAll_spec_witness :
    (Biggie.Array.pushAll (⟨[]⟩ : Biggie.Array Nat) [5, 6, 7]).length = 3 ∧
    (Biggie.Array.pushAll (⟨[]⟩ : Biggie.Array Nat) [5, 6, 7]).index 1 = some 6 :=
  ⟨(C6_pushAll_spec [5, 6, 7]).1, (C6_pushAll_spec [5, 6, 7]).2.1 1 (by decide)⟩

/-- Claim C7: push(x) immediately followed by pop() succeeds (the container is
non-empty after the push), returns x, and restores the container to exactly
its state before the push. -/
theorem C7_push_pop {T : Type} (a : Biggie.Array T) (x : T) :
    Biggie.Array.pop (Biggie.Array.push a x).1 = some (x, a) := by
  obtain ⟨d⟩ := a
  show Biggie.Array.pop ⟨d ++ [x]⟩ = some (x, ⟨d⟩)
  unfold Biggie.Array.pop
  simp

/-- Claim C8: println("%s and %d", ["hi", 5]) writes exactly "hi and 5"
followed by a newline; and in general every successful println output ends
with the newline appended by the final putchar, even when the format string
contains none. -/
theorem C8_println_unchecked :
    BiggieC.println "%s and %d".toList [Biggie.PrintArg.str "hi", Biggie.PrintArg.int 5] =
      some "hi and 5\n" ∧
    ∀ (format : List Char) (args : List Biggie.PrintArg) (out : String),
      BiggieC.println format args = some out →
      ∃ t, BiggieC.scan format args = some t ∧ out = t ++ "\n" := by
  refine ⟨by decide, fun format args out h => ?_⟩
  unfold BiggieC.println at h
  cases hs : BiggieC.scan format args with
  | none => rw [hs] at h; simp at h
  | some t =>
    rw [hs] at h
    simp only [Option.map_some', Option.some.injEq] at h
    exact ⟨t, rfl, h.symm⟩

theorem C8_println_unchecked_witness :
    ∃ t, BiggieC.scan "%s and %d".toList [Biggie.PrintArg.str "hi", Biggie.PrintArg.int 5] =
      some t ∧ ("hi and 5\n" : String) = t ++ "\n" :=
  C8_println_unchecked.2 "%s and %d".toList
    [Biggie.PrintArg.str "hi", Biggie.PrintArg.int 5] "hi and 5\n" C8_println_unchecked.1

/-- Claim C10: in the C-dialect println scanner, a '%' followed by any
character other than 's' or 'd' (a second '%' included) emits nothing — both
characters are skipped — and consumes no argument; in particular "%%" does
not print a literal percent sign: println("a%%b", []) writes "ab\n". -/
theorem C10_unknown_directive (c : Char) (rest : List Char)
    (args : List Biggie.PrintArg) (hs : c ≠ 's') (hd : c ≠ 'd') :
    BiggieC.scan ('%' :: c :: rest) args = BiggieC.scan rest args ∧
    BiggieC.println "a%%b".toList [] = some "ab\n" := by
  refine ⟨?_, by decide⟩
  simp [BiggieC.scan, hs, hd]

theorem C10_unknown_directive_witness :
    BiggieC.scan ('%' :: 'x' :: "ab".toList) [] = BiggieC.scan "ab".toList [] ∧
    BiggieC.println "a%%b".toList [] = some "ab\n" :=
  C10_unknown_directive 'x' "ab".toList [] (by decide) (by decide)
